import Mathlib

/-!
Shallow embedding of the adaptive-difficulty core of the Adaptive Code
Learning Platform.

Embedded here, translated from the repository source:
  * the `user_skills` row (supabase/schema.sql, table `public.user_skills`)
    and the two SQL functions that read and mutate it:
    `get_or_create_user_skill` and `update_user_difficulty`;
  * the `learning_sessions` row with its `valid_session_dates` CHECK
    constraint, the session-start route insert, the session-end route
    update, and the two session-counter updates performed by the
    check-answer and generate-question routes;
  * the validation pipeline for the LLM-supplied `difficulty_score`:
    the zod `QuestionSchema` bound (`z.number().int().min(1).max(100)`,
    lib/openrouter/generation-service) and the `valid_difficulty_score`
    CHECK constraint on the `questions` table.

SQL `INTEGER` columns are modelled as `Int` (the values involved never
approach the 32-bit bounds, and Postgres raises on overflow rather than
wrapping, so no modular arithmetic is needed).  Timestamps are modelled
as `Int` instants.  Per-key database state for a single `(user_id,
language)` pair is an `Option UserSkill` (`none` = no row), which is
faithful because `user_skills` has a UNIQUE constraint on that pair and
both SQL functions touch only that one row.
-/

/-- One row of `public.user_skills` for a fixed `(user_id, language)`
pair, with the columns the SQL functions read or write.  Field order
follows the schema: `current_difficulty_score` (DEFAULT 10),
`total_questions_attempted` (DEFAULT 0), `correct_answers` (DEFAULT 0),
`current_streak` (DEFAULT 0), `best_streak` (DEFAULT 0),
`last_practiced_at` (nullable, DEFAULT NULL), `updated_at`. -/
structure UserSkill where
  current_difficulty_score : Int
  total_questions_attempted : Int
  correct_answers : Int
  current_streak : Int
  best_streak : Int
  last_practiced_at : Option Int
  updated_at : Int
  deriving Repr, DecidableEq

/-- The CHECK constraint `valid_current_difficulty` on `user_skills`:
`current_difficulty_score >= 1 AND current_difficulty_score <= 100`. -/
def valid_current_difficulty (r : UserSkill) : Bool :=
  decide (1 ≤ r.current_difficulty_score) && decide (r.current_difficulty_score ≤ 100)

/-- SQL function `get_or_create_user_skill(p_user_id, p_language)` from
supabase/schema.sql, restricted to the single `(user_id, language)` row
it touches.  It SELECTs the row; IF NOT FOUND it INSERTs one with
`current_difficulty_score = 10` and the table defaults for every other
column (`last_practiced_at` stays NULL, `updated_at` defaults to NOW(),
passed in as `now`).  Returns the row it found or created, paired with
the database state afterwards. -/
def get_or_create_user_skill (db : Option UserSkill) (now : Int) :
    UserSkill × Option UserSkill :=
  match db with
  | some r => (r, some r)
  | none =>
      let r : UserSkill := ⟨10, 0, 0, 0, 0, none, now⟩
      (r, some r)

/-- The CASE expression of `update_user_difficulty` on a correct answer:
`WHEN v_current_streak >= 3 THEN 5 WHEN p_question_difficulty >
v_new_difficulty THEN 3 ELSE 2` (at this point `v_new_difficulty` still
holds the old score). -/
def correctAnswerGain (streak score questionDifficulty : Int) : Int :=
  if streak ≥ 3 then 5 else if questionDifficulty > score then 3 else 2

/-- The CASE expression of `update_user_difficulty` on a wrong answer:
`WHEN v_current_streak > 0 THEN 2 WHEN p_question_difficulty <
v_new_difficulty THEN 5 ELSE 3`. -/
def wrongAnswerLoss (streak score questionDifficulty : Int) : Int :=
  if streak > 0 then 2 else if questionDifficulty < score then 5 else 3

/-- The new `current_difficulty_score` computed by
`update_user_difficulty`: `LEAST(100, score + gain)` on a correct
answer, `GREATEST(1, score - loss)` on a wrong one, both CASE branches
evaluated against the streak the row held going into the attempt. -/
def nextScore (r : UserSkill) (p_is_correct : Bool) (p_question_difficulty : Int) : Int :=
  if p_is_correct then
    min 100 (r.current_difficulty_score +
      correctAnswerGain r.current_streak r.current_difficulty_score p_question_difficulty)
  else
    max 1 (r.current_difficulty_score -
      wrongAnswerLoss r.current_streak r.current_difficulty_score p_question_difficulty)

/-- The new `current_streak` computed by `update_user_difficulty`:
`v_current_streak + 1` on a correct answer, `0` on a wrong one. -/
def nextStreak (r : UserSkill) (p_is_correct : Bool) : Int :=
  if p_is_correct then r.current_streak + 1 else 0

/-- SQL function `update_user_difficulty(p_user_id, p_language,
p_is_correct, p_question_difficulty)` from supabase/schema.sql,
restricted to the single `(user_id, language)` row it touches.  Returns
the database state afterwards paired with the function's INTEGER return
value.

When the SELECT finds no row, both local variables stay NULL; the CASE
falls through to its ELSE arm (NULL comparisons are not true), the sum
with NULL is NULL, and Postgres's `LEAST`/`GREATEST` ignore NULL
arguments, so `v_new_difficulty` ends up 100 (correct) or 1 (wrong);
the UPDATE then matches zero rows, so no row is created or changed, and
the function returns that value.

When the row exists, the UPDATE writes the new score and streak,
increments `total_questions_attempted`, adds `CASE WHEN p_is_correct
THEN 1 ELSE 0 END` to `correct_answers`, takes `GREATEST(best_streak,
v_current_streak)` with the already-updated streak, and stamps
`last_practiced_at` and `updated_at` with NOW() (passed in as `now`). -/
def update_user_difficulty (db : Option UserSkill) (p_is_correct : Bool)
    (p_question_difficulty : Int) (now : Int) : Option UserSkill × Option Int :=
  match db with
  | none => (none, some (if p_is_correct then 100 else 1))
  | some r =>
      (some ⟨nextScore r p_is_correct p_question_difficulty,
             r.total_questions_attempted + 1,
             r.correct_answers + (if p_is_correct then 1 else 0),
             nextStreak r p_is_correct,
             max r.best_streak (nextStreak r p_is_correct),
             some now,
             now⟩,
       some (nextScore r p_is_correct p_question_difficulty))

/-- A sequence of `update_user_difficulty` calls against the same
`(user_id, language)` row: each list entry is `(p_is_correct,
p_question_difficulty, now)`. -/
def runUpdates (db : Option UserSkill) : List (Bool × Int × Int) → Option UserSkill
  | [] => db
  | (c, d, t) :: rest => runUpdates (update_user_difficulty db c d t).1 rest

/-- One row of `public.learning_sessions`, with the columns the routes
read or write.  Field order follows the schema: `started_at` (DEFAULT
NOW()), `ended_at` (nullable), `questions_attempted` (DEFAULT 0),
`questions_correct` (DEFAULT 0). -/
structure LearningSession where
  started_at : Int
  ended_at : Option Int
  questions_attempted : Int
  questions_correct : Int
  deriving Repr, DecidableEq

/-- The CHECK constraint `valid_session_dates` on `learning_sessions`:
`ended_at IS NULL OR ended_at >= started_at`. -/
def valid_session_dates (s : LearningSession) : Bool :=
  match s.ended_at with
  | none => true
  | some e => decide (s.started_at ≤ e)

/-- The insert performed by the session-start route
(app/api/sessions/start/route.ts): `started_at = new Date()`, both
counters 0, `ended_at` absent (NULL). -/
def startSession (now : Int) : LearningSession := ⟨now, none, 0, 0⟩

/-- The update performed by the session-end route
(app/api/sessions/[id]/end/route.ts): it sets `ended_at = new Date()`
on the session row.  Postgres checks the updated row against
`valid_session_dates`; a violated CHECK aborts the statement, leaving
the row unchanged, and the route surfaces the database error, so the
result is modelled as `Except`: `ok` carries the updated row, `error`
means the stored row is untouched. -/
def endSessionUpdate (s : LearningSession) (now : Int) : Except String LearningSession :=
  let s2 : LearningSession := ⟨s.started_at, some now, s.questions_attempted, s.questions_correct⟩
  if valid_session_dates s2 then Except.ok s2
  else Except.error "valid_session_dates check violated"

/-- A value placed in a supabase-js `.update(...)` payload for an
INTEGER column: either an actual integer, or (as the check-answer route
does) an un-awaited `supabase.rpc(name, args)` query-builder object
used where a column value belongs. -/
inductive UpdateValue where
  | intVal : Int → UpdateValue
  | rpcBuilder : String → UpdateValue
  deriving Repr, DecidableEq

/-- The SQL functions `CREATE OR REPLACE FUNCTION` declares in
supabase/schema.sql; these are the only RPCs the database exposes. -/
def schemaRpcFunctions : List String :=
  ["get_or_create_user_skill", "update_user_difficulty"]

/-- Applying an update payload for the `questions_correct` column to a
session row.  `none` models the route passing `undefined`, which
supabase-js drops from the payload, so the update changes nothing; an
integer value is written as given; an rpc-builder object is not an
integer, so the write is rejected and the row is unchanged (the builder
is never awaited, and its target RPC is not a schema function
anyway). -/
def applyQuestionsCorrectUpdate (s : LearningSession) :
    Option UpdateValue → Except String LearningSession
  | none => Except.ok s
  | some (UpdateValue.intVal n) =>
      Except.ok ⟨s.started_at, s.ended_at, s.questions_attempted, n⟩
  | some (UpdateValue.rpcBuilder _) =>
      Except.error "non-integer value for questions_correct"

/-- The session update performed by the check-answer route after an
answer is judged (app/api/check-answer/route.ts): it updates only
`questions_correct`, to `supabase.rpc(increment-name, x = 1)` when the
answer was correct and to `undefined` otherwise; `questions_attempted`
is not in the payload at all. -/
def checkAnswerSessionUpdate (s : LearningSession) (is_correct : Bool) :
    Except String LearningSession :=
  applyQuestionsCorrectUpdate s
    (if is_correct then some (UpdateValue.rpcBuilder "increment") else none)

/-- The session update performed by the generate-question route
(app/api/generate-question/route.ts): it reads `questions_attempted`
and writes back that value plus one; no other column is touched. -/
def generateQuestionSessionUpdate (s : LearningSession) : LearningSession :=
  ⟨s.started_at, s.ended_at, s.questions_attempted + 1, s.questions_correct⟩

/-- The bound the zod `QuestionSchema` places on the LLM-supplied
`difficulty_score` (lib/openrouter/generation-service:
`z.number().int().min(1).max(100)`); `generateQuestion` only returns a
question after `QuestionSchema.parse` succeeds on it. -/
def questionSchemaAcceptsDifficulty (d : Int) : Bool :=
  decide (1 ≤ d) && decide (d ≤ 100)

/-- The CHECK constraint `valid_difficulty_score` on the `questions`
table: `difficulty_score >= 1 AND difficulty_score <= 100`; an insert
violating it fails, so no such row is stored. -/
def valid_difficulty_score (d : Int) : Bool :=
  decide (1 ≤ d) && decide (d ≤ 100)

/-- Whether an LLM-supplied `difficulty_score` can reach
`update_user_difficulty`.  The only call site is the check-answer
route, which passes `question.difficulty_score` of a row fetched from
the `questions` table; such a row exists only if the generate-question
route stored it, which requires `QuestionSchema.parse` to have accepted
the generated question and the insert to have satisfied
`valid_difficulty_score`. -/
def difficultyReachesTransition (d : Int) : Bool :=
  questionSchemaAcceptsDifficulty d && valid_difficulty_score d

/-- Spec scenarios 1 to 7 of section 8, evaluated on the embedded
transition: starting rows, correctness flags and question difficulties
as listed there, each producing exactly the score and streak the spec
predicts. -/
theorem spec_scenarios_hold :
    (update_user_difficulty (some ⟨50, 0, 0, 0, 0, none, 0⟩) true 50 7).1 =
      some ⟨52, 1, 1, 1, 1, some 7, 7⟩ ∧
    (update_user_difficulty (some ⟨50, 4, 3, 3, 3, none, 0⟩) true 50 7).1 =
      some ⟨55, 5, 4, 4, 4, some 7, 7⟩ ∧
    (update_user_difficulty (some ⟨50, 0, 0, 0, 0, none, 0⟩) true 70 7).1 =
      some ⟨53, 1, 1, 1, 1, some 7, 7⟩ ∧
    (update_user_difficulty (some ⟨50, 0, 0, 0, 0, none, 0⟩) false 50 7).1 =
      some ⟨47, 1, 0, 0, 0, some 7, 7⟩ ∧
    (update_user_difficulty (some ⟨50, 2, 2, 2, 2, none, 0⟩) false 50 7).1 =
      some ⟨48, 3, 2, 0, 2, some 7, 7⟩ ∧
    (update_user_difficulty (some ⟨98, 0, 0, 3, 3, none, 0⟩) true 98 7).1 =
      some ⟨100, 1, 1, 4, 4, some 7, 7⟩ ∧
    (update_user_difficulty (some ⟨2, 0, 0, 0, 0, none, 0⟩) false 10 7).1 =
      some ⟨1, 1, 0, 0, 0, some 7, 7⟩ := by
  decide

/-- Claim C1: for every skill row with score in 1..100 and streak at
least 0 and every question difficulty in 1..100, the correct-answer
transition adds exactly 5 to the score when the streak is at least 3,
else 3 when the question difficulty exceeds the score, else 2, in that
priority order; the result is clamped to at most 100, and the new
streak is the old streak plus one. -/
theorem c1_correct_transition (r : UserSkill) (d t : Int)
    (hscore : 1 ≤ r.current_difficulty_score ∧ r.current_difficulty_score ≤ 100)
    (hstreak : 0 ≤ r.current_streak)
    (hd : 1 ≤ d ∧ d ≤ 100) :
    ∃ r2 : UserSkill, (update_user_difficulty (some r) true d t).1 = some r2 ∧
      (3 ≤ r.current_streak →
        r2.current_difficulty_score = min 100 (r.current_difficulty_score + 5)) ∧
      (r.current_streak < 3 → r.current_difficulty_score < d →
        r2.current_difficulty_score = min 100 (r.current_difficulty_score + 3)) ∧
      (r.current_streak < 3 → d ≤ r.current_difficulty_score →
        r2.current_difficulty_score = min 100 (r.current_difficulty_score + 2)) ∧
      r2.current_difficulty_score ≤ 100 ∧
      r2.current_streak = r.current_streak + 1 := by
  refine ⟨_, rfl, ?_, ?_, ?_, ?_, ?_⟩
  all_goals simp only [nextScore, nextStreak, correctAnswerGain]
  all_goals intros
  all_goals first
    | (split_ifs <;> omega)
    | omega

/-- Witness for C1 at spec scenario 6: row with score 98 and streak 3,
correct answer of difficulty 98. -/
theorem c1_witness :
    ∃ r2 : UserSkill,
      (update_user_difficulty (some ⟨98, 0, 0, 3, 3, none, 0⟩) true 98 7).1 = some r2 ∧
      r2.current_difficulty_score ≤ 100 ∧
      r2.current_streak = (⟨98, 0, 0, 3, 3, none, 0⟩ : UserSkill).current_streak + 1 := by
  obtain ⟨r2, h1, _, _, _, h5, h6⟩ :=
    c1_correct_transition ⟨98, 0, 0, 3, 3, none, 0⟩ 98 7
      (by decide) (by decide) (by decide)
  exact ⟨r2, h1, h5, h6⟩

/-- Claim C2: for every skill row with score in 1..100 and streak at
least 0 and every question difficulty in 1..100, the wrong-answer
transition subtracts exactly 2 from the score when the streak is
positive, else 5 when the question difficulty is below the score, else
3, in that priority order; the result is clamped to at least 1, and
the new streak is 0. -/
theorem c2_wrong_transition (r : UserSkill) (d t : Int)
    (hscore : 1 ≤ r.current_difficulty_score ∧ r.current_difficulty_score ≤ 100)
    (hstreak : 0 ≤ r.current_streak)
    (hd : 1 ≤ d ∧ d ≤ 100) :
    ∃ r2 : UserSkill, (update_user_difficulty (some r) false d t).1 = some r2 ∧
      (0 < r.current_streak →
        r2.current_difficulty_score = max 1 (r.current_difficulty_score - 2)) ∧
      (r.current_streak ≤ 0 → d < r.current_difficulty_score →
        r2.current_difficulty_score = max 1 (r.current_difficulty_score - 5)) ∧
      (r.current_streak ≤ 0 → r.current_difficulty_score ≤ d →
        r2.current_difficulty_score = max 1 (r.current_difficulty_score - 3)) ∧
      1 ≤ r2.current_difficulty_score ∧
      r2.current_streak = 0 := by
  refine ⟨_, rfl, ?_, ?_, ?_, ?_, ?_⟩
  all_goals simp [nextScore, nextStreak, wrongAnswerLoss]
  all_goals try intros
  all_goals try first
    | (split_ifs <;> omega)
    | omega

/-- Witness for C2 at spec scenario 4: row with score 50 and streak 0,
wrong answer of difficulty 50. -/
theorem c2_witness :
    ∃ r2 : UserSkill,
      (update_user_difficulty (some ⟨50, 0, 0, 0, 0, none, 0⟩) false 50 7).1 = some r2 ∧
      1 ≤ r2.current_difficulty_score ∧
      r2.current_streak = 0 := by
  obtain ⟨r2, h1, _, _, _, h5, h6⟩ :=
    c2_wrong_transition ⟨50, 0, 0, 0, 0, none, 0⟩ 50 7
      (by decide) (by decide) (by decide)
  exact ⟨r2, h1, h5, h6⟩

/-- Claim C3: for every skill row with score in 1..100 and every
question difficulty in 1..100, the correct-answer transition never
lowers the score and keeps it at most 100, and the wrong-answer
transition never raises it and keeps it at least 1. -/
theorem c3_score_monotone_and_bounded (r : UserSkill) (d t : Int)
    (hscore : 1 ≤ r.current_difficulty_score ∧ r.current_difficulty_score ≤ 100)
    (hd : 1 ≤ d ∧ d ≤ 100) :
    (∃ r2 : UserSkill, (update_user_difficulty (some r) true d t).1 = some r2 ∧
      r.current_difficulty_score ≤ r2.current_difficulty_score ∧
      r2.current_difficulty_score ≤ 100) ∧
    (∃ r3 : UserSkill, (update_user_difficulty (some r) false d t).1 = some r3 ∧
      r3.current_difficulty_score ≤ r.current_difficulty_score ∧
      1 ≤ r3.current_difficulty_score) := by
  constructor
  · refine ⟨_, rfl, ?_, ?_⟩
    all_goals simp [nextScore, correctAnswerGain]
    all_goals try split_ifs <;> omega
  · refine ⟨_, rfl, ?_, ?_⟩
    all_goals simp [nextScore, wrongAnswerLoss]
    all_goals try split_ifs <;> omega

/-- Witness for C3 at the row with score 50 and streak 2, question
difficulty 60. -/
theorem c3_witness :
    (∃ r2 : UserSkill,
      (update_user_difficulty (some ⟨50, 9, 5, 2, 4, none, 0⟩) true 60 7).1 = some r2 ∧
      (⟨50, 9, 5, 2, 4, none, 0⟩ : UserSkill).current_difficulty_score ≤
        r2.current_difficulty_score ∧
      r2.current_difficulty_score ≤ 100) ∧
    (∃ r3 : UserSkill,
      (update_user_difficulty (some ⟨50, 9, 5, 2, 4, none, 0⟩) false 60 7).1 = some r3 ∧
      r3.current_difficulty_score ≤
        (⟨50, 9, 5, 2, 4, none, 0⟩ : UserSkill).current_difficulty_score ∧
      1 ≤ r3.current_difficulty_score) :=
  c3_score_monotone_and_bounded ⟨50, 9, 5, 2, 4, none, 0⟩ 60 7 (by decide) (by decide)

/-- Helper: one `update_user_difficulty` step on an existing row yields
a row whose bookkeeping columns are exactly what the UPDATE statement
writes. -/
theorem update_step_fields (r : UserSkill) (c : Bool) (d t : Int) :
    ∃ r2 : UserSkill, (update_user_difficulty (some r) c d t).1 = some r2 ∧
      r2.best_streak = max r.best_streak r2.current_streak ∧
      r2.total_questions_attempted = r.total_questions_attempted + 1 ∧
      r2.correct_answers = r.correct_answers + (if c then 1 else 0) ∧
      r2.last_practiced_at = some t :=
  ⟨_, rfl, rfl, rfl, rfl, rfl⟩

/-- Helper: one `update_user_difficulty` step never lowers the best
streak, the attempt count, or the correct count. -/
theorem update_step_mono (r : UserSkill) (c : Bool) (d t : Int) :
    ∃ r2 : UserSkill, (update_user_difficulty (some r) c d t).1 = some r2 ∧
      r.best_streak ≤ r2.best_streak ∧
      r.total_questions_attempted ≤ r2.total_questions_attempted ∧
      r.correct_answers ≤ r2.correct_answers := by
  refine ⟨_, rfl, le_max_left _ _, ?_, ?_⟩
  · simp
  · by_cases hc : c <;> simp [hc]

/-- Helper: across any sequence of `update_user_difficulty` calls the
best streak, the attempt count, and the correct count never
decrease. -/
theorem runUpdates_mono (l : List (Bool × Int × Int)) (r : UserSkill) :
    ∃ r2 : UserSkill, runUpdates (some r) l = some r2 ∧
      r.best_streak ≤ r2.best_streak ∧
      r.total_questions_attempted ≤ r2.total_questions_attempted ∧
      r.correct_answers ≤ r2.correct_answers := by
  induction l generalizing r with
  | nil => exact ⟨r, rfl, le_refl _, le_refl _, le_refl _⟩
  | cons head tl ih =>
      obtain ⟨c, d, t⟩ := head
      obtain ⟨r1, h1, hb1, ha1, hc1⟩ := update_step_mono r c d t
      obtain ⟨r2, h2, hb2, ha2, hc2⟩ := ih r1
      refine ⟨r2, ?_, le_trans hb1 hb2, le_trans ha1 ha2, le_trans hc1 hc2⟩
      simpa [runUpdates, h1] using h2

/-- Helper: one `update_user_difficulty` step keeps the score inside
1..100 whenever the row it starts from is inside 1..100, for every
question difficulty whatsoever. -/
theorem update_preserves_score_range (db : Option UserSkill) (c : Bool) (d t : Int)
    (h : ∀ r0, db = some r0 →
      1 ≤ r0.current_difficulty_score ∧ r0.current_difficulty_score ≤ 100) :
    ∀ r2, (update_user_difficulty db c d t).1 = some r2 →
      1 ≤ r2.current_difficulty_score ∧ r2.current_difficulty_score ≤ 100 := by
  match db with
  | none => intro r2 h2; simp [update_user_difficulty] at h2
  | some r0 =>
      intro r2 h2
      obtain ⟨h1, h100⟩ := h r0 rfl
      simp only [update_user_difficulty, Option.some.injEq] at h2
      subst h2
      simp only [nextScore, correctAnswerGain, wrongAnswerLoss]
      split_ifs <;> omega

/-- Helper: the score stays inside 1..100 across any sequence of
`update_user_difficulty` calls. -/
theorem runUpdates_preserves_score_range (l : List (Bool × Int × Int))
    (db : Option UserSkill)
    (h : ∀ r0, db = some r0 →
      1 ≤ r0.current_difficulty_score ∧ r0.current_difficulty_score ≤ 100) :
    ∀ r2, runUpdates db l = some r2 →
      1 ≤ r2.current_difficulty_score ∧ r2.current_difficulty_score ≤ 100 := by
  induction l generalizing db with
  | nil => intro r2 h2; exact h r2 h2
  | cons head tl ih =>
      obtain ⟨c, d, t⟩ := head
      intro r2 h2
      refine ih _ (update_preserves_score_range db c d t h) r2 ?_
      simpa [runUpdates] using h2

/-- Claim C4: the invariant that the score lies in 1..100 holds for the
lazily created initial row (score 10), is preserved by every
application of the transition for any correctness flag and any question
difficulty in 1..100, and hence holds for every row reachable from the
initial row by a sequence of transitions with in-range difficulties. -/
theorem c4_score_invariant :
    (∀ t0 : Int,
       (get_or_create_user_skill none t0).1.current_difficulty_score = 10 ∧
       1 ≤ (get_or_create_user_skill none t0).1.current_difficulty_score ∧
       (get_or_create_user_skill none t0).1.current_difficulty_score ≤ 100) ∧
    (∀ (r : UserSkill) (c : Bool) (d t : Int),
       1 ≤ r.current_difficulty_score → r.current_difficulty_score ≤ 100 →
       1 ≤ d → d ≤ 100 →
       ∃ r2 : UserSkill, (update_user_difficulty (some r) c d t).1 = some r2 ∧
         1 ≤ r2.current_difficulty_score ∧ r2.current_difficulty_score ≤ 100) ∧
    (∀ (t0 : Int) (l : List (Bool × Int × Int)),
       (∀ x ∈ l, 1 ≤ x.2.1 ∧ x.2.1 ≤ 100) →
       ∀ r2 : UserSkill,
         runUpdates (some (get_or_create_user_skill none t0).1) l = some r2 →
         1 ≤ r2.current_difficulty_score ∧ r2.current_difficulty_score ≤ 100) := by
  refine ⟨fun t0 => ⟨rfl, show (1 : Int) ≤ 10 by decide, show (10 : Int) ≤ 100 by decide⟩,
    ?_, ?_⟩
  · intro r c d t h1 h100 hd1 hd100
    refine ⟨_, rfl, ?_⟩
    refine update_preserves_score_range (some r) c d t ?_ _ rfl
    intro r0 h0
    injection h0 with h0
    subst h0
    exact ⟨h1, h100⟩
  · intro t0 l hrange r2 h2
    refine runUpdates_preserves_score_range l _ ?_ r2 h2
    intro r0 h0
    injection h0 with h0
    subst h0
    exact ⟨show (1 : Int) ≤ 10 by decide, show (10 : Int) ≤ 100 by decide⟩

/-- Witness for C4: preservation applied to the freshly created row with
score 10, a correct answer of difficulty 50. -/
theorem c4_witness :
    ∃ r2 : UserSkill,
      (update_user_difficulty (some ⟨10, 0, 0, 0, 0, none, 0⟩) true 50 7).1 = some r2 ∧
      1 ≤ r2.current_difficulty_score ∧ r2.current_difficulty_score ≤ 100 :=
  c4_score_invariant.2.1 ⟨10, 0, 0, 0, 0, none, 0⟩ true 50 7
    (by decide) (by decide) (by decide) (by decide)

/-- Claim C5: every application of the transition sets the best streak
to the maximum of the old best streak and the new streak, adds one to
the attempt count, adds the correctness flag to the correct count, and
stamps the practice time; consequently the best streak and both
counters never decrease across any sequence of transitions. -/
theorem c5_bookkeeping :
    (∀ (r : UserSkill) (c : Bool) (d t : Int),
       ∃ r2 : UserSkill, (update_user_difficulty (some r) c d t).1 = some r2 ∧
         r2.best_streak = max r.best_streak r2.current_streak ∧
         r2.total_questions_attempted = r.total_questions_attempted + 1 ∧
         r2.correct_answers = r.correct_answers + (if c then 1 else 0) ∧
         r2.last_practiced_at = some t) ∧
    (∀ (r : UserSkill) (l : List (Bool × Int × Int)),
       ∃ r2 : UserSkill, runUpdates (some r) l = some r2 ∧
         r.best_streak ≤ r2.best_streak ∧
         r.total_questions_attempted ≤ r2.total_questions_attempted ∧
         r.correct_answers ≤ r2.correct_answers) :=
  ⟨fun r c d t => update_step_fields r c d t, fun r l => runUpdates_mono l r⟩

/-- Claim C8: a missing skill row is lazily created with score 10 and
zeroed counters, an existing row is returned as is, and calling
get-or-create twice for the same pair returns the created row with the
state unchanged. -/
theorem c8_lazy_init_idempotent :
    (∀ t0 : Int, get_or_create_user_skill none t0 =
       (⟨10, 0, 0, 0, 0, none, t0⟩, some ⟨10, 0, 0, 0, 0, none, t0⟩)) ∧
    (∀ (r : UserSkill) (t1 : Int), get_or_create_user_skill (some r) t1 = (r, some r)) ∧
    (∀ t0 t1 : Int,
       get_or_create_user_skill ((get_or_create_user_skill none t0).2) t1 =
         ((get_or_create_user_skill none t0).1, (get_or_create_user_skill none t0).2)) :=
  ⟨fun t0 => rfl, fun r t1 => rfl, fun t0 t1 => rfl⟩

/-- Claim C9: ending a session sets its end time to the supplied
current time; when that time is earlier than the start time the update
fails and the stored row is unchanged, and every successfully ended
session satisfies end time at least start time. -/
theorem c9_end_session (s : LearningSession) (now : Int) :
    (s.started_at ≤ now →
       endSessionUpdate s now =
         Except.ok ⟨s.started_at, some now, s.questions_attempted, s.questions_correct⟩) ∧
    (now < s.started_at →
       endSessionUpdate s now = Except.error "valid_session_dates check violated") ∧
    (∀ s2, endSessionUpdate s now = Except.ok s2 →
       s2.ended_at = some now ∧ s.started_at ≤ now ∧ valid_session_dates s2 = true) := by
  refine ⟨?_, ?_, ?_⟩
  · intro h
    simp [endSessionUpdate, valid_session_dates, h]
  · intro h
    simp [endSessionUpdate, valid_session_dates]
    omega
  · intro s2 h2
    by_cases h : s.started_at ≤ now
    · simp [endSessionUpdate, valid_session_dates, h] at h2
      subst h2
      exact ⟨rfl, h, by simp [valid_session_dates, h]⟩
    · simp [endSessionUpdate, valid_session_dates, h] at h2

/-- Witness for C9: a session started at time 0 is ended at time 5. -/
theorem c9_witness :
    endSessionUpdate ⟨0, none, 0, 0⟩ 5 = Except.ok ⟨0, some 5, 0, 0⟩ :=
  (c9_end_session ⟨0, none, 0, 0⟩ 5).1 (by decide)

/-- Claim C10: called with no existing skill row,
`update_user_difficulty` creates no row and updates no row, so the
stored state stays empty; the default row is created only by
`get_or_create_user_skill`, which the generate-question route invokes
(the check-answer route only calls `update_user_difficulty`). -/
theorem c10_no_lazy_init_in_update :
    (∀ (c : Bool) (d t : Int), (update_user_difficulty none c d t).1 = none) ∧
    (∀ t0 : Int, (get_or_create_user_skill none t0).2 =
       some ⟨10, 0, 0, 0, 0, none, t0⟩) :=
  ⟨fun c d t => rfl, fun t0 => rfl⟩

/-- Counterexample to claim C6: there is no difficulty value outside
1..100 that passes the validation pipeline and reaches
`update_user_difficulty` — the zod `QuestionSchema` bound and the
`valid_difficulty_score` CHECK constraint both sit on the only path
from the LLM to the transition's call site. -/
theorem c6_counterexample :
    ¬ ∃ d : Int, (d < 1 ∨ 100 < d) ∧ difficultyReachesTransition d = true := by
  rintro ⟨d, hout, hreach⟩
  simp [difficultyReachesTransition, questionSchemaAcceptsDifficulty,
    valid_difficulty_score] at hreach
  rcases hout with h | h <;> omega

/-- Claim C6 as amended: the system does validate the LLM-supplied
difficulty score before it can be fed into the transition function —
any difficulty that reaches `update_user_difficulty` has passed both
the zod `QuestionSchema` bound and the `valid_difficulty_score` CHECK
constraint, and therefore lies in 1..100. -/
theorem c6_amended_validation (d : Int)
    (h : difficultyReachesTransition d = true) :
    1 ≤ d ∧ d ≤ 100 ∧ questionSchemaAcceptsDifficulty d = true ∧
      valid_difficulty_score d = true := by
  simp [difficultyReachesTransition, questionSchemaAcceptsDifficulty,
    valid_difficulty_score] at h ⊢
  omega

/-- Witness for the amended C6 at difficulty 50. -/
theorem c6_witness :
    1 ≤ (50 : Int) ∧ (50 : Int) ≤ 100 ∧
      questionSchemaAcceptsDifficulty 50 = true ∧ valid_difficulty_score 50 = true :=
  c6_amended_validation 50 (by decide)

/-- Claim C7, evaluated at a failing input (bug in the code): on an
open session with 3 attempted and 2 correct, recording a judged
correct attempt at answer time rejects the write, because the payload
sets `questions_correct` to an un-awaited rpc builder targeting an
`increment` function that schema.sql never defines, and recording an
incorrect attempt leaves the session completely unchanged (the payload
is `undefined`); in neither case does `questions_attempted` become 4
at answer time — that column is incremented only by the
generate-question route. -/
theorem c7_session_counters_bug :
    checkAnswerSessionUpdate ⟨0, none, 3, 2⟩ true =
      Except.error "non-integer value for questions_correct" ∧
    checkAnswerSessionUpdate ⟨0, none, 3, 2⟩ false = Except.ok ⟨0, none, 3, 2⟩ ∧
    schemaRpcFunctions.contains "increment" = false ∧
    generateQuestionSessionUpdate ⟨0, none, 3, 2⟩ = ⟨0, none, 4, 2⟩ := by
  refine ⟨rfl, rfl, ?_, rfl⟩
  decide
